import Mathlib

/-!
Verification of the Fingerprint Usage Risk Analysis System against its
specification.  The repository ships the presentation layer (React pages) and
two design documents; the Risk Analysis Engine itself (fusion engine, usage
pattern analyzer, usage ledger store, audit ledger) is described by the
specification but its implementation is not part of the shipped sources, so
those components are modelled here directly from the specification's words.
The frontend handlers (`handleSubmit`, `handleAnalyze` in the Analysis pages)
are embedded from the shipped TypeScript sources.

Scores are modelled as rationals (the spec's `[0,100]` scale), timestamps as
integers (seconds).
-/

namespace FingerRisk

/-! ## Context Reasoning & Fusion Engine (spec §4.4) -/

/-- Verdict severity levels, ascending risk. -/
inductive RiskLevel where
  | normal
  | suspicious
  | high
deriving DecidableEq, Repr

/-- Modelled from the spec: fusion weight configuration for the Fusion Engine
(`w_u`, `w_q`); the implementation (`risk_engine.py`) is not in the shipped
sources. -/
structure FusionConfig where
  w_u : ℚ
  w_q : ℚ
deriving DecidableEq, Repr

/-- Modelled from the spec: default fusion weights `w_u = 0.4`, `w_q = 0.6`. -/
def defaultFusionConfig : FusionConfig := ⟨4/10, 6/10⟩

/-- Modelled from the spec: configured weights are validated at startup to sum
to 1.0; an invalid configuration is rejected. -/
def validateConfig (c : FusionConfig) : Except String FusionConfig :=
  if c.w_u + c.w_q = 1 then Except.ok c else Except.error "weights must sum to 1.0"

/-- Modelled from the spec: `combined_score = w_u * usage_risk + w_q * quality_risk`. -/
def combinedScore (c : FusionConfig) (usage_risk quality_risk : ℚ) : ℚ :=
  c.w_u * usage_risk + c.w_q * quality_risk

/-- Modelled from the spec: classification thresholds on `combined_score`
(ascending risk scale): `[0,40) → normal`, `[40,70) → suspicious`,
`[70,100] → high`, each boundary belonging to the more severe band. -/
def classify (s : ℚ) : RiskLevel :=
  if s < 40 then RiskLevel.normal
  else if s < 70 then RiskLevel.suspicious
  else RiskLevel.high

/-- Risk verdict as produced by the Fusion Engine (spec §3 `RiskVerdict`,
restricted to the fields the claims mention). -/
structure RiskVerdict where
  level : RiskLevel
  combined_score : ℚ
  usage_risk : ℚ
  quality_risk : ℚ
  status_mismatch : Bool
deriving DecidableEq, Repr

/-- Modelled from the spec: the Fusion Engine combines usage risk and quality
risk into a verdict; if `status_mismatch` is true the level is forced to
`high` regardless of combined_score, while combined_score itself is reported
unmodified.  The implementation (`risk_engine.py`) is not in the shipped
sources. -/
def fuse (c : FusionConfig) (usage_risk quality_risk : ℚ)
    (status_mismatch : Bool) : RiskVerdict :=
  let s := combinedScore c usage_risk quality_risk
  { level := if status_mismatch then RiskLevel.high else classify s
    combined_score := s
    usage_risk := usage_risk
    quality_risk := quality_risk
    status_mismatch := status_mismatch }

/-! ## Usage Pattern Analyzer (spec §4.2) -/

/-- Sectors in which a fingerprint usage event can occur (spec §3). -/
inductive Sector where
  | forensic
  | hospital
  | border
  | banking
  | unknown
deriving DecidableEq, Repr

/-- Usage event (spec §3 `UsageEvent`).  A case id is modelled as a pair of a
case namespace and a local id within that namespace, so that the spec's
"different case namespace within the same sector" is expressible. -/
structure UsageEvent where
  fingerprint_digest : ℕ
  sector : Sector
  case_ns : ℕ
  case_local : ℕ
  timestamp : ℤ
  sequence_number : ℕ
deriving DecidableEq, Repr

/-- Full case id of an event: namespace paired with local id. -/
def UsageEvent.case_id (e : UsageEvent) : ℕ × ℕ := (e.case_ns, e.case_local)

/-- Modelled from the spec: analyzer configuration (trailing window, frequency
threshold, dormancy threshold, flag weights); the implementation
(`usage_agent.py`) is not in the shipped sources. -/
structure UsageConfig where
  freqWindow : ℤ
  freqThreshold : ℕ
  dormancy : ℤ
  wFreq : ℚ
  wReuse : ℚ
  wReact : ℚ
deriving DecidableEq, Repr

/-- Modelled from the spec: defaults — 24-hour window (86400 s), threshold 5,
30-day dormancy (2592000 s), flag weights 30/40/30. -/
def defaultUsageConfig : UsageConfig := ⟨86400, 5, 2592000, 30, 40, 30⟩

/-- Membership of a timestamp in the trailing window ending at `cur`
(inclusive of `cur` itself). -/
def inTrailingWindow (window cur t : ℤ) : Bool :=
  decide (cur - window < t) && decide (t ≤ cur)

/-- Count of events within the trailing window of the current event's
timestamp, counting the current event itself. -/
def recentCount (window : ℤ) (history : List UsageEvent) (current : UsageEvent) : ℕ :=
  ((history ++ [current]).filter
    (fun e => inTrailingWindow window current.timestamp e.timestamp)).length

/-- Two events are an unrelated-case pair: distinct case ids that are in
different sectors, or in different case namespaces within the same sector. -/
def unrelatedCases (e1 e2 : UsageEvent) : Bool :=
  decide (e1.case_id ≠ e2.case_id) &&
    (decide (e1.sector ≠ e2.sector) || decide (e1.case_ns ≠ e2.case_ns))

/-- Analyzer output (spec §3 `UsagePatternResult`). -/
structure UsagePatternResult where
  frequency_flag : Bool
  reuse_flag : Bool
  reactivation_flag : Bool
  usage_risk : ℚ
  reason_codes : List String
deriving DecidableEq, Repr

/-- Modelled from the spec: the Usage Pattern Analyzer, a pure function over
the history including the current event (`history` holds the prior events in
stored order, `current` is the event under analysis); the implementation
(`usage_agent.py`) is not in the shipped sources. -/
def analyzeUsage (cfg : UsageConfig) (history : List UsageEvent)
    (current : UsageEvent) : UsagePatternResult :=
  let full := history ++ [current]
  let freq := decide (cfg.freqThreshold < recentCount cfg.freqWindow history current)
  let reuse := full.any (fun e1 => full.any (fun e2 => unrelatedCases e1 e2))
  let react :=
    match history.getLast? with
    | none => false
    | some prev => decide (cfg.dormancy < current.timestamp - prev.timestamp)
  let risk : ℚ := (if freq then cfg.wFreq else 0) + (if reuse then cfg.wReuse else 0)
      + (if react then cfg.wReact else 0)
  { frequency_flag := freq
    reuse_flag := reuse
    reactivation_flag := react
    usage_risk := min risk 100
    reason_codes := (if freq then ["FREQUENCY"] else [])
      ++ (if reuse then ["REUSE"] else [])
      ++ (if react then ["REACTIVATION"] else []) }

/-! ## Audit Ledger (spec §4.5) -/

/-- Numeric encoding of a risk level, used inside the ledger hash. -/
def RiskLevel.toNat : RiskLevel → ℕ
  | RiskLevel.normal => 0
  | RiskLevel.suspicious => 1
  | RiskLevel.high => 2

/-- Modelled from the spec: the hash over the six hashed fields of a ledger
record, `hash(fingerprint_digest, case_id, level, combined_score, timestamp,
sequence_index)`; the implementation is not in the shipped sources, so the
hash is modelled as the canonical injective pairing on naturals, an ideal
hash with no collisions. -/
def hash6 (a b c d e f : ℕ) : ℕ :=
  Nat.pair a (Nat.pair b (Nat.pair c (Nat.pair d (Nat.pair e f))))

/-- Modelled from the spec: the fixed genesis constant that the first
record's `prev_hash` must equal. -/
def genesisHash : ℕ := 0

/-- Stored ledger record (spec §3 `LedgerRecord`, with the verdict digest
expanded into the hashed verdict fields). -/
structure LedgerRecord where
  sequence_index : ℕ
  fingerprint_digest : ℕ
  case_id : ℕ
  level : RiskLevel
  combined_score : ℕ
  timestamp : ℕ
  content_hash : ℕ
  prev_hash : ℕ
deriving DecidableEq, Repr

/-- Recompute a record's content hash from its stored fields. -/
def recomputeHash (r : LedgerRecord) : ℕ :=
  hash6 r.fingerprint_digest r.case_id r.level.toNat r.combined_score
    r.timestamp r.sequence_index

/-- Single-record check: recomputed content hash matches the stored value and
the stored `prev_hash` equals the expected previous hash. -/
def checkRecord (prev : ℕ) (r : LedgerRecord) : Bool :=
  decide (recomputeHash r = r.content_hash) && decide (r.prev_hash = prev)

/-- Scan of the chain from a given previous-hash context and index, returning
`none` on success or `some i` at the first record whose check fails. -/
def verifyFrom (prev i : ℕ) : List LedgerRecord → Option ℕ
  | [] => none
  | r :: rest => if checkRecord prev r then verifyFrom r.content_hash (i + 1) rest else some i

/-- Modelled from the spec: `verify_chain()` scans all records in sequence
order, recomputing each content_hash and checking prev_hash linkage, and
returns success (`none`) or the index of the first mismatch; the
implementation is not in the shipped sources. -/
def verify_chain (l : List LedgerRecord) : Option ℕ :=
  verifyFrom genesisHash 0 l

/-- Expected previous hash for position `k` of a chain: the genesis constant
for the first record, the stored content hash of record `k-1` otherwise. -/
def prevOf (l : List LedgerRecord) : ℕ → ℕ
  | 0 => genesisHash
  | k + 1 => ((l.get? k).map LedgerRecord.content_hash).getD genesisHash

/-- Previous-hash context reached at position `k` when scanning with initial
context `prev`. -/
def prevCtx : ℕ → List LedgerRecord → ℕ → ℕ
  | prev, _, 0 => prev
  | prev, [], _ + 1 => prev
  | _, r :: rest, k + 1 => prevCtx r.content_hash rest k

/-- Mutation of exactly one stored field: the two records agree on all stored
fields except precisely one, on which they differ. -/
def DiffersInOneField (r r2 : LedgerRecord) : Prop :=
  (r2.sequence_index ≠ r.sequence_index ∧ r2.fingerprint_digest = r.fingerprint_digest ∧
    r2.case_id = r.case_id ∧ r2.level = r.level ∧ r2.combined_score = r.combined_score ∧
    r2.timestamp = r.timestamp ∧ r2.content_hash = r.content_hash ∧ r2.prev_hash = r.prev_hash)
  ∨ (r2.sequence_index = r.sequence_index ∧ r2.fingerprint_digest ≠ r.fingerprint_digest ∧
    r2.case_id = r.case_id ∧ r2.level = r.level ∧ r2.combined_score = r.combined_score ∧
    r2.timestamp = r.timestamp ∧ r2.content_hash = r.content_hash ∧ r2.prev_hash = r.prev_hash)
  ∨ (r2.sequence_index = r.sequence_index ∧ r2.fingerprint_digest = r.fingerprint_digest ∧
    r2.case_id ≠ r.case_id ∧ r2.level = r.level ∧ r2.combined_score = r.combined_score ∧
    r2.timestamp = r.timestamp ∧ r2.content_hash = r.content_hash ∧ r2.prev_hash = r.prev_hash)
  ∨ (r2.sequence_index = r.sequence_index ∧ r2.fingerprint_digest = r.fingerprint_digest ∧
    r2.case_id = r.case_id ∧ r2.level ≠ r.level ∧ r2.combined_score = r.combined_score ∧
    r2.timestamp = r.timestamp ∧ r2.content_hash = r.content_hash ∧ r2.prev_hash = r.prev_hash)
  ∨ (r2.sequence_index = r.sequence_index ∧ r2.fingerprint_digest = r.fingerprint_digest ∧
    r2.case_id = r.case_id ∧ r2.level = r.level ∧ r2.combined_score ≠ r.combined_score ∧
    r2.timestamp = r.timestamp ∧ r2.content_hash = r.content_hash ∧ r2.prev_hash = r.prev_hash)
  ∨ (r2.sequence_index = r.sequence_index ∧ r2.fingerprint_digest = r.fingerprint_digest ∧
    r2.case_id = r.case_id ∧ r2.level = r.level ∧ r2.combined_score = r.combined_score ∧
    r2.timestamp ≠ r.timestamp ∧ r2.content_hash = r.content_hash ∧ r2.prev_hash = r.prev_hash)
  ∨ (r2.sequence_index = r.sequence_index ∧ r2.fingerprint_digest = r.fingerprint_digest ∧
    r2.case_id = r.case_id ∧ r2.level = r.level ∧ r2.combined_score = r.combined_score ∧
    r2.timestamp = r.timestamp ∧ r2.content_hash ≠ r.content_hash ∧ r2.prev_hash = r.prev_hash)
  ∨ (r2.sequence_index = r.sequence_index ∧ r2.fingerprint_digest = r.fingerprint_digest ∧
    r2.case_id = r.case_id ∧ r2.level = r.level ∧ r2.combined_score = r.combined_score ∧
    r2.timestamp = r.timestamp ∧ r2.content_hash = r.content_hash ∧ r2.prev_hash ≠ r.prev_hash)

/-! ## Usage Ledger Store (spec §4.1) -/

/-- Input to the store's `append`: a usage event before a sequence number is
assigned. -/
structure EventInput where
  fingerprint_digest : ℕ
  sector : Sector
  case_ns : ℕ
  case_local : ℕ
  timestamp : ℤ
deriving DecidableEq, Repr

/-- Modelled from the spec: the append-only usage ledger store, holding all
stored events in insertion order; the implementation (`database.py`) is not in
the shipped sources. -/
structure LedgerStore where
  events : List UsageEvent
deriving DecidableEq, Repr

/-- Stored history of one fingerprint digest, in insertion order. -/
def historyOf (s : LedgerStore) (d : ℕ) : List UsageEvent :=
  s.events.filter (fun e => decide (e.fingerprint_digest = d))

/-- Store-level error kinds (spec §7). -/
inductive StoreError where
  | OutOfOrderEvent
deriving DecidableEq, Repr

/-- Event persisted for an input: the input's fields plus the next sequence
number for its digest. -/
def mkEvent (s : LedgerStore) (e : EventInput) : UsageEvent :=
  { fingerprint_digest := e.fingerprint_digest
    sector := e.sector
    case_ns := e.case_ns
    case_local := e.case_local
    timestamp := e.timestamp
    sequence_number := (historyOf s e.fingerprint_digest).length }

/-- Modelled from the spec: `append(event)` rejects with `OutOfOrderEvent`
(leaving the store unchanged) if the event's timestamp precedes the most
recent stored event's timestamp for the same digest, and otherwise persists
the event with the next sequence number for that digest; the implementation
(`database.py`) is not in the shipped sources. -/
def appendEvent (s : LedgerStore) (e : EventInput) :
    LedgerStore × Except StoreError UsageEvent :=
  match (historyOf s e.fingerprint_digest).getLast? with
  | some last =>
    if e.timestamp < last.timestamp then (s, Except.error StoreError.OutOfOrderEvent)
    else (⟨s.events ++ [mkEvent s e]⟩, Except.ok (mkEvent s e))
  | none => (⟨s.events ++ [mkEvent s e]⟩, Except.ok (mkEvent s e))

/-! ## Frontend: mock Analysis page (src/unnamed/part_002, first component) -/

/-- Input mode of the analysis form (`AnalysisForm.tsx`). -/
inductive InputType where
  | upload
  | hash
deriving DecidableEq, Repr

/-- Submitted form data (`AnalysisData` in `AnalysisForm.tsx`); the uploaded
file is modelled as an opaque content digest. -/
structure AnalysisData where
  inputType : InputType
  fingerprint : Option ℕ
  fingerprintHash : Option String
  personId : String
  identityStatus : String
  lastActivityDate : String
  sector : String
  caseId : String
  timestamp : String
deriving DecidableEq, Repr

/-- Usage-pattern agent block of the mock result. -/
structure UsagePatternAgent where
  usageFrequency : String
  unrelatedCaseReuse : Bool
  inactivityToActivity : Bool
  riskScore : ℕ
  reasoning : String
deriving DecidableEq, Repr

/-- Post-mortem agent block of the mock result. -/
structure PostMortemAgent where
  ridgeClarity : ℕ
  textureScore : ℕ
  distortionIndicators : List String
  confidence : ℕ
  reasoning : String
deriving DecidableEq, Repr

/-- Context-reasoning agent block of the mock result. -/
structure ContextReasoningAgent where
  statusMismatch : Bool
  combinedReasoning : String
  finalVerdict : String
deriving DecidableEq, Repr

/-- Agent blocks of the mock result. -/
structure MockAgents where
  usagePattern : UsagePatternAgent
  postMortem : PostMortemAgent
  contextReasoning : ContextReasoningAgent
deriving DecidableEq, Repr

/-- Shape of the mock Analysis page result (`typeof mockResult`). -/
structure MockAnalysisResult where
  riskLevel : String
  riskScore : ℕ
  summary : String
  agents : MockAgents
deriving DecidableEq, Repr

/-- The fixed `mockResult` constant of the mock Analysis page. -/
def mockResult : MockAnalysisResult :=
  { riskLevel := "high"
    riskScore := 87
    summary := "This fingerprint usage has been flagged as HIGH RISK due to multiple concerning indicators. The fingerprint was used 3 days after the registered identity was marked as deceased. Additionally, the usage pattern shows sudden activity after 8 months of inactivity, and the fingerprint quality analysis indicates potential post-mortem degradation markers."
    agents :=
      { usagePattern :=
          { usageFrequency := "3 uses in 48 hours"
            unrelatedCaseReuse := true
            inactivityToActivity := true
            riskScore := 78
            reasoning := "The fingerprint shows a pattern of sudden reactivation after 8 months of complete inactivity. This is a strong indicator of potential misuse, especially when combined with cross-sector usage between forensic and hospital systems." }
        postMortem :=
          { ridgeClarity := 62
            textureScore := 45
            distortionIndicators := ["Elasticity degradation", "Ridge flattening", "Moisture anomaly"]
            confidence := 84
            reasoning := "Biometric quality analysis indicates signs consistent with post-mortem tissue degradation. Ridge clarity and texture scores are below expected thresholds for a living individual. Multiple distortion indicators suggest the fingerprint may have been captured from deceased tissue." }
        contextReasoning :=
          { statusMismatch := true
            combinedReasoning := "The identity associated with this fingerprint was marked as deceased on 2024-01-15, yet the fingerprint was used for hospital patient verification on 2024-01-18. This temporal inconsistency, combined with the biometric degradation indicators and unusual usage patterns, strongly suggests fraudulent post-mortem use of the fingerprint."
            finalVerdict := "HIGH RISK - IMMEDIATE INVESTIGATION REQUIRED" } } }

/-- The mock page's submit handler: it ignores the submitted data entirely and
always publishes `mockResult` (`handleSubmit` in the first Analysis
component). -/
def handleSubmit (_data : AnalysisData) : MockAnalysisResult := mockResult

/-! ## Frontend: backend-connected Analysis page (src/unnamed/part_002,
second component) -/

/-- Displayed result of the backend-connected Analysis page.  The TypeScript
interface declares `status` as the union of exactly "normal", "suspicious",
and "high_risk"; the field is modelled as a string because the error path
assigns the out-of-union value "error". -/
structure AnalysisResultUI where
  status : String
  livenessScore : ℚ
  usageScore : ℚ
  combinedScore : ℚ
  summary : String
deriving DecidableEq, Repr

/-- The status values that the declared `AnalysisResult` union admits. -/
def declaredStatusUnion : List String := ["normal", "suspicious", "high_risk"]

/-- JSON body of a successful backend response, as the handler reads it;
fields accessed through `||` fallbacks may be absent. -/
structure BackendResponse where
  risk_level : String
  liveness_score : ℚ
  usage_score : Option ℚ
  combined_score : Option ℚ
  explanation : String
deriving DecidableEq, Repr

/-- JavaScript `x || y` on a possibly-absent number: the fallback is taken
when the field is absent or zero (falsy). -/
def jsOr (x : Option ℚ) (y : ℚ) : ℚ :=
  match x with
  | none => y
  | some v => if v = 0 then y else v

/-- JavaScript `toLowerCase()` on the backend's risk-level string, modelled
character-wise. -/
def toLowerCase (s : String) : String := String.mk (s.data.map Char.toLower)

/-- The status mapping of `handleAnalyze`: the backend risk level is
lowercased and mapped through the ternary chain, every unrecognized value
falling through to "normal". -/
def mapStatus (risk_level : String) : String :=
  let riskLevel := toLowerCase risk_level
  if riskLevel = "normal" then "normal"
  else if riskLevel = "suspicious" then "suspicious"
  else if riskLevel = "high" then "high_risk"
  else "normal"

/-- The result set by the catch branch of `handleAnalyze`. -/
def errorResult : AnalysisResultUI :=
  { status := "error"
    livenessScore := 0
    usageScore := 0
    combinedScore := 0
    summary := "Analysis failed. Please check if the backend is running." }

/-- Outcome of the fetch to the backend, as observed by `handleAnalyze`:
either some step threw, or an HTTP response arrived with the given `ok` flag
and parsed body. -/
inductive FetchOutcome where
  | failure
  | response (ok : Bool) (data : BackendResponse)
deriving DecidableEq, Repr

/-- The backend-connected page's analyze handler as a total function on the
fetch outcome: a thrown error or a non-ok response reaches the catch branch
and yields `errorResult`, and an ok response is mapped field by field; being a
total function, no exception escapes. -/
def handleAnalyze (o : FetchOutcome) : AnalysisResultUI :=
  match o with
  | FetchOutcome.failure => errorResult
  | FetchOutcome.response ok data =>
    if ok then
      { status := mapStatus data.risk_level
        livenessScore := data.liveness_score
        usageScore := jsOr data.usage_score 1
        combinedScore := jsOr data.combined_score data.liveness_score
        summary := data.explanation }
    else errorResult

/-! ## Theorems for the claims -/

/-- C1: for every analysis, the verdict level is determined from
combined_score on the ascending risk scale — `[0,40)` is normal, `[40,70)`
suspicious, `[70,100]` high, each boundary value belonging to the more severe
band, so `classify 40` is suspicious and `classify 70` is high (absent the
status-mismatch override). -/
theorem fusion_level_thresholds (c : FusionConfig) (u q : ℚ) :
    (fuse c u q false).level = classify ((fuse c u q false).combined_score) ∧
    (∀ s : ℚ,
      (classify s = RiskLevel.normal ↔ s < 40) ∧
      (classify s = RiskLevel.suspicious ↔ 40 ≤ s ∧ s < 70) ∧
      (classify s = RiskLevel.high ↔ 70 ≤ s)) ∧
    classify 40 = RiskLevel.suspicious ∧ classify 70 = RiskLevel.high := by
  refine ⟨rfl, ?_, ?_, ?_⟩
  · intro s
    by_cases h1 : s < 40 <;> by_cases h2 : s < 70 <;>
      simp [classify, h1, h2] <;> linarith
  · norm_num [classify]
  · norm_num [classify]

/-- C2: whenever `status_mismatch` is true, the fused verdict's level is
`high` regardless of the combined score, and the reported combined score is
the unmodified weighted sum. -/
theorem fusion_status_mismatch_override (c : FusionConfig) (u q : ℚ) :
    (fuse c u q true).level = RiskLevel.high ∧
    (fuse c u q true).combined_score = combinedScore c u q ∧
    (fuse c u q true).combined_score = c.w_u * u + c.w_q * q :=
  ⟨rfl, rfl, rfl⟩

/-- C3: the fusion engine computes `combined_score = w_u * usage_risk + w_q *
quality_risk`, the default weights are 0.4 and 0.6, and startup validation
accepts a configuration exactly when its weights sum to 1.0. -/
theorem fusion_combined_score_weights :
    (∀ (c : FusionConfig) (u q : ℚ) (m : Bool),
      (fuse c u q m).combined_score = c.w_u * u + c.w_q * q) ∧
    defaultFusionConfig.w_u = 4/10 ∧ defaultFusionConfig.w_q = 6/10 ∧
    (∀ c : FusionConfig, validateConfig c = Except.ok c ↔ c.w_u + c.w_q = 1) ∧
    validateConfig defaultFusionConfig = Except.ok defaultFusionConfig := by
  refine ⟨fun c u q m => rfl, rfl, rfl, ?_, by norm_num [validateConfig, defaultFusionConfig]⟩
  intro c
  unfold validateConfig
  split_ifs with h <;> simp [h]

/-- C4: for every event history of a fixed digest, `frequency_flag` is true
iff the number of events with timestamps in the trailing 24 hours (86400 s) of
the current event's timestamp, the current event included, strictly exceeds
the default threshold 5. -/
theorem analyzer_frequency_flag (history : List UsageEvent) (current : UsageEvent) :
    ((analyzeUsage defaultUsageConfig history current).frequency_flag = true ↔
      5 < recentCount 86400 history current) ∧
    defaultUsageConfig.freqThreshold = 5 ∧ defaultUsageConfig.freqWindow = 86400 := by
  refine ⟨?_, rfl, rfl⟩
  simp [analyzeUsage, defaultUsageConfig]

/-- C5: `reactivation_flag` is true iff the gap from the immediately
preceding event to the current event exceeds the 30-day dormancy threshold
(2592000 s), and on the first-ever event for the digest both
`reactivation_flag` and `reuse_flag` are false. -/
theorem analyzer_reactivation_flag (current : UsageEvent) :
    (∀ history : List UsageEvent,
      ((analyzeUsage defaultUsageConfig history current).reactivation_flag = true ↔
        ∃ prev, history.getLast? = some prev ∧
          2592000 < current.timestamp - prev.timestamp)) ∧
    (analyzeUsage defaultUsageConfig [] current).reactivation_flag = false ∧
    (analyzeUsage defaultUsageConfig [] current).reuse_flag = false := by
  refine ⟨?_, rfl, ?_⟩
  · intro history
    cases h : history.getLast? with
    | none => simp [analyzeUsage, h]
    | some prev => simp [analyzeUsage, h, defaultUsageConfig]
  · simp [analyzeUsage, unrelatedCases]

/-! ### Audit-ledger lemmas -/

/-- Decidability of the single-field-mutation predicate. -/
instance decDiffersInOneField (r r2 : LedgerRecord) : Decidable (DiffersInOneField r r2) := by
  unfold DiffersInOneField
  repeat' refine @instDecidableOr _ _ ?_ ?_
  all_goals repeat' refine @instDecidableAnd _ _ ?_ ?_
  all_goals infer_instance

/-- The modelled ledger hash is injective in all six hashed fields. -/
lemma hash6_inj {a b c d e f a2 b2 c2 d2 e2 f2 : ℕ} :
    hash6 a b c d e f = hash6 a2 b2 c2 d2 e2 f2 ↔
      a = a2 ∧ b = b2 ∧ c = c2 ∧ d = d2 ∧ e = e2 ∧ f = f2 := by
  simp [hash6, Nat.pair_eq_pair]

/-- The risk-level encoding is injective. -/
lemma RiskLevel.toNat_inj : ∀ l1 l2 : RiskLevel, l1.toNat = l2.toNat → l1 = l2 := by
  intro l1 l2
  cases l1 <;> cases l2 <;> simp [RiskLevel.toNat]

/-- The scan context at position 0 is the initial context. -/
lemma prevCtx_zero (prev : ℕ) (l : List LedgerRecord) : prevCtx prev l 0 = prev := by
  cases l <;> rfl

/-- The scan context at a successor position is the stored content hash of
the preceding record. -/
lemma prevCtx_succ :
    ∀ (l : List LedgerRecord) (prev k : ℕ) (hk : k < l.length),
      prevCtx prev l (k + 1) = l[k].content_hash := by
  intro l
  induction l with
  | nil => intro prev k hk; simp at hk
  | cons r rest ih =>
    intro prev k hk
    cases k with
    | zero => simp [prevCtx, prevCtx_zero]
    | succ k =>
      have hk2 : k < rest.length := by simpa using Nat.lt_of_succ_lt_succ hk
      simpa [prevCtx] using ih r.content_hash k hk2

/-- For position `k` within the chain, the expected previous hash equals the
scan context starting from the genesis constant. -/
lemma prevOf_eq_prevCtx (l : List LedgerRecord) (k : ℕ) (hk : k < l.length) :
    prevOf l k = prevCtx genesisHash l k := by
  cases k with
  | zero => simp [prevOf, prevCtx_zero]
  | succ k =>
    have hk2 : k < l.length := Nat.lt_of_succ_lt hk
    rw [prevCtx_succ l genesisHash k hk2]
    simp [prevOf, List.getElem?_eq_getElem hk2]

/-- A scan succeeds exactly when every position's record check passes against
its scan context. -/
lemma verifyFrom_none_iff :
    ∀ (l : List LedgerRecord) (prev i : ℕ),
      verifyFrom prev i l = none ↔
        ∀ k (hk : k < l.length), checkRecord (prevCtx prev l k) l[k] = true := by
  intro l
  induction l with
  | nil => intro prev i; simp [verifyFrom]
  | cons r rest ih =>
    intro prev i
    by_cases hc : checkRecord prev r = true
    · rw [show verifyFrom prev i (r :: rest) = verifyFrom r.content_hash (i + 1) rest from by
        simp [verifyFrom, hc]]
      rw [ih r.content_hash (i + 1)]
      constructor
      · intro H k hk
        cases k with
        | zero => simpa [prevCtx_zero] using hc
        | succ k =>
          have hk2 : k < rest.length := by simpa using Nat.lt_of_succ_lt_succ hk
          simpa [prevCtx] using H k hk2
      · intro H k hk
        have := H (k + 1) (by simpa using Nat.succ_lt_succ hk)
        simpa [prevCtx] using this
    · rw [show verifyFrom prev i (r :: rest) = some i from by simp [verifyFrom, hc]]
      refine iff_of_false (by simp) ?_
      intro H
      exact hc (by simpa [prevCtx_zero] using H 0 (by simp))

/-- Replacing the record at position `k` of a chain whose scan succeeds with a
record that fails its check makes the scan stop exactly at position `k`. -/
lemma verifyFrom_set_fail :
    ∀ (l : List LedgerRecord) (prev i k : ℕ) (r2 : LedgerRecord),
      verifyFrom prev i l = none → k < l.length →
      checkRecord (prevCtx prev l k) r2 = false →
      verifyFrom prev i (l.set k r2) = some (i + k) := by
  intro l
  induction l with
  | nil => intro prev i k r2 _ hk _; simp at hk
  | cons r rest ih =>
    intro prev i k r2 hnone hk hfail
    have hc : checkRecord prev r = true := by
      by_contra hcc
      simp [verifyFrom, hcc] at hnone
    have hrest : verifyFrom r.content_hash (i + 1) rest = none := by
      simpa [verifyFrom, hc] using hnone
    cases k with
    | zero =>
      have hf : checkRecord prev r2 = false := by simpa [prevCtx_zero] using hfail
      simp [verifyFrom, hf]
    | succ k =>
      have hk2 : k < rest.length := by simpa using Nat.lt_of_succ_lt_succ hk
      have hf2 : checkRecord (prevCtx r.content_hash rest k) r2 = false := by
        simpa [prevCtx] using hfail
      have hrec := ih r.content_hash (i + 1) k r2 hrest hk2 hf2
      simp [verifyFrom, hc, hrec]
      omega

/-- A record that passes its check in some context fails it after mutation of
exactly one stored field. -/
lemma checkRecord_fail_of_differs {ctx : ℕ} {r r2 : LedgerRecord}
    (hr : checkRecord ctx r = true) (hd : DiffersInOneField r r2) :
    checkRecord ctx r2 = false := by
  rw [Bool.eq_false_iff]
  intro h2
  simp only [checkRecord, Bool.and_eq_true, decide_eq_true_eq] at hr h2
  obtain ⟨hr1, hr2⟩ := hr
  obtain ⟨h21, h22⟩ := h2
  rcases hd with hcase | hcase | hcase | hcase | hcase | hcase | hcase | hcase <;>
    obtain ⟨e1, e2, e3, e4, e5, e6, e7, e8⟩ := hcase
  · have hh : recomputeHash r2 = recomputeHash r := by rw [h21, e7, ← hr1]
    rw [recomputeHash, recomputeHash, hash6_inj] at hh
    exact e1 hh.2.2.2.2.2
  · have hh : recomputeHash r2 = recomputeHash r := by rw [h21, e7, ← hr1]
    rw [recomputeHash, recomputeHash, hash6_inj] at hh
    exact e2 hh.1
  · have hh : recomputeHash r2 = recomputeHash r := by rw [h21, e7, ← hr1]
    rw [recomputeHash, recomputeHash, hash6_inj] at hh
    exact e3 hh.2.1
  · have hh : recomputeHash r2 = recomputeHash r := by rw [h21, e7, ← hr1]
    rw [recomputeHash, recomputeHash, hash6_inj] at hh
    exact e4 (RiskLevel.toNat_inj r2.level r.level hh.2.2.1)
  · have hh : recomputeHash r2 = recomputeHash r := by rw [h21, e7, ← hr1]
    rw [recomputeHash, recomputeHash, hash6_inj] at hh
    exact e5 hh.2.2.2.1
  · have hh : recomputeHash r2 = recomputeHash r := by rw [h21, e7, ← hr1]
    rw [recomputeHash, recomputeHash, hash6_inj] at hh
    exact e6 hh.2.2.2.2.1
  · have hh : recomputeHash r2 = recomputeHash r := by
      rw [recomputeHash, recomputeHash, e1, e2, e3, e4, e5, e6]
    exact e7 (h21.symm.trans (hh.trans hr1))
  · exact e8 (h22.trans hr2.symm)

/-- C6: `verify_chain` succeeds exactly when every record's recomputed
content hash matches its stored value and every `prev_hash` equals the
previous record's stored content hash (the genesis constant for the first
record); and on a chain that verifies, mutating exactly one stored field of
the record at sequence index `k` makes `verify_chain` report the first
mismatch exactly at `k`. -/
theorem verify_chain_spec :
    (∀ l : List LedgerRecord,
      verify_chain l = none ↔
        ∀ k (hk : k < l.length),
          recomputeHash l[k] = l[k].content_hash ∧ l[k].prev_hash = prevOf l k) ∧
    (∀ (l : List LedgerRecord) (k : ℕ) (hk : k < l.length) (r2 : LedgerRecord),
      verify_chain l = none → DiffersInOneField l[k] r2 →
      l[k].sequence_index = k →
      verify_chain (l.set k r2) = some k) := by
  constructor
  · intro l
    rw [verify_chain, verifyFrom_none_iff]
    refine forall_congr' fun k => forall_congr' fun hk => ?_
    rw [prevOf_eq_prevCtx l k hk]
    simp [checkRecord]
  · intro l k hk r2 hnone hd hseq
    rw [verify_chain] at hnone ⊢
    have hck : checkRecord (prevCtx genesisHash l k) l[k] = true :=
      (verifyFrom_none_iff l genesisHash 0).mp hnone k hk
    have hf : checkRecord (prevCtx genesisHash l k) r2 = false :=
      checkRecord_fail_of_differs hck hd
    simpa using verifyFrom_set_fail l genesisHash 0 k r2 hnone hk hf

/-- First record of the concrete two-record chain used to witness C6. -/
def wrec0 : LedgerRecord :=
  { sequence_index := 0
    fingerprint_digest := 0
    case_id := 0
    level := RiskLevel.normal
    combined_score := 0
    timestamp := 0
    content_hash := hash6 0 0 0 0 0 0
    prev_hash := genesisHash }

/-- Second record of the concrete two-record chain used to witness C6. -/
def wrec1 : LedgerRecord :=
  { sequence_index := 1
    fingerprint_digest := 0
    case_id := 0
    level := RiskLevel.normal
    combined_score := 0
    timestamp := 0
    content_hash := hash6 0 0 0 0 0 1
    prev_hash := hash6 0 0 0 0 0 0 }

/-- Tampered copy of `wrec1`: only the stored timestamp is changed. -/
def wrec1T : LedgerRecord := { wrec1 with timestamp := 5 }

/-- Witness for C6: the concrete two-record chain verifies, and tampering
with the second record's timestamp makes verification report index 1. -/
theorem verify_chain_spec_witness :
    verify_chain [wrec0, wrec1] = none ∧
    verify_chain (List.set [wrec0, wrec1] 1 wrec1T) = some 1 :=
  ⟨(verify_chain_spec.1 [wrec0, wrec1]).mpr (by decide),
   verify_chain_spec.2 [wrec0, wrec1] 1 (by decide) wrec1T (by decide) (by decide) (by decide)⟩

/-! ### Ledger-store lemmas -/

/-- Appending one event to the store extends exactly the history of its own
digest. -/
lemma historyOf_push (s : LedgerStore) (ev : UsageEvent) (d : ℕ) :
    historyOf ⟨s.events ++ [ev]⟩ d
      = historyOf s d ++ (if ev.fingerprint_digest = d then [ev] else []) := by
  by_cases h : ev.fingerprint_digest = d <;>
    simp [historyOf, List.filter_append, h]

/-- C7: an event whose timestamp precedes the most recent stored event for
its digest is rejected with `OutOfOrderEvent` and every digest's stored
history is unchanged; any other event is persisted at the end of its digest's
history with the next sequence number for that digest. -/
theorem appendEvent_spec (s : LedgerStore) (e : EventInput) :
    (∀ last : UsageEvent,
      (historyOf s e.fingerprint_digest).getLast? = some last →
      e.timestamp < last.timestamp →
      (appendEvent s e).2 = Except.error StoreError.OutOfOrderEvent ∧
      (appendEvent s e).1 = s ∧
      ∀ d, historyOf (appendEvent s e).1 d = historyOf s d) ∧
    ((∀ last : UsageEvent,
        (historyOf s e.fingerprint_digest).getLast? = some last →
        last.timestamp ≤ e.timestamp) →
      (appendEvent s e).2 = Except.ok (mkEvent s e) ∧
      (mkEvent s e).sequence_number = (historyOf s e.fingerprint_digest).length ∧
      historyOf (appendEvent s e).1 e.fingerprint_digest
        = historyOf s e.fingerprint_digest ++ [mkEvent s e] ∧
      ∀ d, d ≠ e.fingerprint_digest →
        historyOf (appendEvent s e).1 d = historyOf s d) := by
  constructor
  · intro last hl hlt
    cases h : (historyOf s e.fingerprint_digest).getLast? with
    | none => rw [h] at hl; exact absurd hl (by simp)
    | some l0 =>
      rw [h] at hl
      obtain rfl : l0 = last := by injection hl
      have : appendEvent s e = (s, Except.error StoreError.OutOfOrderEvent) := by
        simp [appendEvent, h, hlt]
      rw [this]
      exact ⟨rfl, rfl, fun d => rfl⟩
  · intro hge
    have hbranch : (appendEvent s e).1 = ⟨s.events ++ [mkEvent s e]⟩ ∧
        (appendEvent s e).2 = Except.ok (mkEvent s e) := by
      cases h : (historyOf s e.fingerprint_digest).getLast? with
      | none => simp [appendEvent, h]
      | some last =>
        have hle : last.timestamp ≤ e.timestamp := hge last h
        simp [appendEvent, h, not_lt.mpr hle]
    refine ⟨hbranch.2, rfl, ?_, ?_⟩
    · rw [hbranch.1, historyOf_push]
      simp [mkEvent]
    · intro d hd
      rw [hbranch.1, historyOf_push]
      have : ¬ (mkEvent s e).fingerprint_digest = d := fun h => hd (by simpa [mkEvent] using h.symm)
      simp [this]

/-- Stored event of the concrete store used to witness C7. -/
def wev : UsageEvent :=
  { fingerprint_digest := 7
    sector := Sector.forensic
    case_ns := 1
    case_local := 1
    timestamp := 100
    sequence_number := 0 }

/-- Concrete one-event store used to witness C7. -/
def wstore : LedgerStore := ⟨[wev]⟩

/-- Backdated input for the same digest: timestamp 50 precedes the stored
timestamp 100. -/
def winputLate : EventInput :=
  { fingerprint_digest := 7
    sector := Sector.hospital
    case_ns := 2
    case_local := 1
    timestamp := 50 }

/-- In-order input for the same digest: timestamp 150 does not precede the
stored timestamp 100. -/
def winputOk : EventInput :=
  { fingerprint_digest := 7
    sector := Sector.hospital
    case_ns := 2
    case_local := 1
    timestamp := 150 }

/-- Witness for C7: the backdated input is rejected leaving the store
unchanged, and the in-order input is persisted with the next sequence
number. -/
theorem appendEvent_spec_witness :
    (appendEvent wstore winputLate).2 = Except.error StoreError.OutOfOrderEvent ∧
    (appendEvent wstore winputLate).1 = wstore ∧
    (appendEvent wstore winputOk).2 = Except.ok (mkEvent wstore winputOk) ∧
    (mkEvent wstore winputOk).sequence_number = 1 := by
  have h1 := (appendEvent_spec wstore winputLate).1 wev (by decide) (by decide)
  have h2 := (appendEvent_spec wstore winputOk).2 (by
    intro last hl
    have hsome : (historyOf wstore winputOk.fingerprint_digest).getLast? = some wev := by
      decide
    rw [hsome] at hl
    obtain rfl : wev = last := by injection hl
    decide)
  exact ⟨h1.1, h1.2.1, h2.1, h2.2.1.trans (by decide)⟩

/-! ### Frontend claim theorems -/

/-- C8: the mock Analysis page's submit handler produces the identical
displayed verdict — the fixed constant with risk level "high" and risk score
87 — for every pair of submitted inputs, so the displayed result is
independent of every field of the submitted `AnalysisData`. -/
theorem handleSubmit_input_independent (d1 d2 : AnalysisData) :
    handleSubmit d1 = handleSubmit d2 ∧
    handleSubmit d1 = mockResult ∧
    (handleSubmit d1).riskLevel = "high" ∧
    (handleSubmit d1).riskScore = 87 :=
  ⟨rfl, rfl, rfl, rfl⟩

/-- C9: on a successful backend response, a lowercased risk level other than
exactly "normal", "suspicious" or "high" displays as "normal"; only
"suspicious" maps to the suspicious display and only "high" maps to the
high_risk display. -/
theorem handleAnalyze_status_mapping (data : BackendResponse) :
    (toLowerCase data.risk_level ≠ "normal" →
      toLowerCase data.risk_level ≠ "suspicious" →
      toLowerCase data.risk_level ≠ "high" →
      (handleAnalyze (FetchOutcome.response true data)).status = "normal") ∧
    ((handleAnalyze (FetchOutcome.response true data)).status = "suspicious" ↔
      toLowerCase data.risk_level = "suspicious") ∧
    ((handleAnalyze (FetchOutcome.response true data)).status = "high_risk" ↔
      toLowerCase data.risk_level = "high") := by
  have hs : (handleAnalyze (FetchOutcome.response true data)).status
      = mapStatus data.risk_level := rfl
  rw [hs]
  unfold mapStatus
  by_cases h1 : toLowerCase data.risk_level = "normal"
  · simp [h1]
  · by_cases h2 : toLowerCase data.risk_level = "suspicious"
    · simp [h1, h2]
    · by_cases h3 : toLowerCase data.risk_level = "high"
      · simp [h1, h2, h3]
      · simp [h1, h2, h3]

/-- Concrete backend response with an out-of-union risk level, used to
witness C9. -/
def wdata : BackendResponse :=
  { risk_level := ""
    liveness_score := 1/2
    usage_score := none
    combined_score := none
    explanation := "ok" }

/-- Witness for C9: the empty risk level is none of the recognized strings
and displays as "normal". -/
theorem handleAnalyze_status_mapping_witness :
    (handleAnalyze (FetchOutcome.response true wdata)).status = "normal" :=
  (handleAnalyze_status_mapping wdata).1 (by decide) (by decide) (by decide)

/-- C10: whenever the analyze request throws or the HTTP response is not ok,
the handler reaches its catch branch and displays the error result, whose
status is "error" — a value outside the declared status union — and whose
three scores are exactly 0; the handler is a total function, so no exception
escapes. -/
theorem handleAnalyze_error_path (o : FetchOutcome) :
    (o = FetchOutcome.failure ∨ ∃ data, o = FetchOutcome.response false data) →
    handleAnalyze o = errorResult ∧
    (handleAnalyze o).status = "error" ∧
    (handleAnalyze o).status ∉ declaredStatusUnion ∧
    (handleAnalyze o).livenessScore = 0 ∧
    (handleAnalyze o).usageScore = 0 ∧
    (handleAnalyze o).combinedScore = 0 := by
  rintro (rfl | ⟨data, rfl⟩)
  · exact ⟨rfl, rfl, by decide, rfl, rfl, rfl⟩
  · refine ⟨rfl, rfl, ?_, rfl, rfl, rfl⟩
    show "error" ∉ declaredStatusUnion
    decide

/-- Witness for C10: a thrown fetch yields the error result with status
"error" and zero scores. -/
theorem handleAnalyze_error_path_witness :
    handleAnalyze FetchOutcome.failure = errorResult ∧
    (handleAnalyze FetchOutcome.failure).status = "error" ∧
    (handleAnalyze FetchOutcome.failure).status ∉ declaredStatusUnion ∧
    (handleAnalyze FetchOutcome.failure).livenessScore = 0 ∧
    (handleAnalyze FetchOutcome.failure).usageScore = 0 ∧
    (handleAnalyze FetchOutcome.failure).combinedScore = 0 :=
  handleAnalyze_error_path FetchOutcome.failure (Or.inl rfl)

end FingerRisk
